import Mathlib

/-!
Verification development for the batch ETL pipeline in `solution_start.py`.

The pipeline joins customers, products and transactions and is meant to
produce a per-customer, per-category purchase summary.  The Lean
definitions below are a shallow embedding of the Python source:

* Python dicts are modelled as insertion-ordered association lists with
  first-match lookup (`dictGet`) and replace-or-append update
  (`dictInsert`), mirroring CPython dict semantics.
* File-system input is modelled by passing the parsed file contents as
  `Option` values to the loaders: `none` models a `FileNotFoundError`.
* Exceptions are modelled with `Except PyErr`; the `try/except` in
  `process_data` becomes a `match` on the result of the pipeline body.
* The customers dict is keyed by `Option String` because the code looks
  transactions up with `transaction.get('customer_id')`, which yields the
  Python value `None` (modelled `none`) when the field is absent, and
  `None` is a legal dict key in Python.
* `generate_output_data` reads a name `transactions` that is not bound in
  its own scope; Python resolves such a name against the module globals.
  The embedding makes that environment explicit: the function takes the
  optional global binding as a parameter, and `moduleTransactionsGlobal`
  records that the module defines no global of that name, so the lookup
  fails with a `NameError`.
-/

namespace Resolve

/-- Value stored per customer: parsed from `customers.csv` rows as
`{loyalty_score: int(row[...]), purchase_count: 0}` in `load_customers`. -/
structure CustRec where
  loyalty_score : Int
  purchase_count : Nat
deriving DecidableEq, Repr

/-- Value stored per product: `{product_category: row[...]}` in `load_products`. -/
structure ProdRec where
  product_category : String
deriving DecidableEq, Repr

/-- One line item of a transaction basket (field `product_id`). -/
structure BasketItem where
  product_id : String
deriving DecidableEq, Repr

/-- One transaction record parsed from a line of a transactions file.  JSON
objects are open maps, so fields read with `.get` are `Option`s: the code
reads `customer_id` (in `aggregate_customer_data` and
`generate_output_data`) and `product_id` (in `generate_output_data`; real
transaction records carry no top-level `product_id`, so it is `none` for
well-formed input).  The `basket` field is present in the input data but is
never read by the code. -/
structure Transaction where
  customer_id : Option String
  basket : List BasketItem
  product_id : Option String
deriving DecidableEq, Repr

/-- Python dict lookup: first entry with the given key. -/
def dictGet {K V : Type} [DecidableEq K] : List (K × V) → K → Option V
  | [], _ => none
  | (k0, v0) :: rest, k => if k0 = k then some v0 else dictGet rest k

/-- Python dict assignment `d[k] = v`: replace the value in place if the key
is present, otherwise append the new entry (insertion order preserved). -/
def dictInsert {K V : Type} [DecidableEq K] : List (K × V) → K → V → List (K × V)
  | [], k, v => [(k, v)]
  | (k0, v0) :: rest, k, v =>
    if k0 = k then (k0, v) :: rest else (k0, v0) :: dictInsert rest k v

/-- The customers dict built by `load_customers` and mutated by
`aggregate_customer_data` (keys lifted to `Option String`, see module header). -/
abbrev CustMap := List (Option String × CustRec)

/-- The products dict built by `load_products`. -/
abbrev ProdMap := List (String × ProdRec)

/-- Python exception values that the pipeline can raise. -/
inductive PyErr where
  | exception (msg : String)
  | nameError (name : String)
deriving DecidableEq, Repr

/-- The `str(e)` rendering used in the printed report (quotes around the
name in the CPython `NameError` text are elided). -/
def PyErr.message : PyErr → String
  | .exception m => m
  | .nameError n => "name " ++ n ++ " is not defined"

/-- One parsed row of `customers.csv`. -/
structure CustomerRow where
  customer_id : String
  loyalty_score : Int
deriving DecidableEq, Repr

/-- One parsed row of `products.csv`. -/
structure ProductRow where
  product_id : String
  product_category : String
deriving DecidableEq, Repr

/-- Embedding of `load_customers`: `none` models an absent
`customers.csv` (`FileNotFoundError`), which the code converts into
`raise Exception("Customers data file not found")`; otherwise each row is
inserted as `{loyalty_score, purchase_count: 0}` keyed by its customer id. -/
def load_customers (file : Option (List CustomerRow)) : Except PyErr CustMap :=
  match file with
  | none => .error (.exception "Customers data file not found")
  | some rows =>
    .ok (rows.foldl (fun cs r => dictInsert cs (some r.customer_id) ⟨r.loyalty_score, 0⟩) [])

/-- Embedding of `load_products`: `none` models an absent `products.csv`,
converted into `raise Exception("Products data file not found")`. -/
def load_products (file : Option (List ProductRow)) : Except PyErr ProdMap :=
  match file with
  | none => .error (.exception "Products data file not found")
  | some rows =>
    .ok (rows.foldl (fun ps r => dictInsert ps r.product_id ⟨r.product_category⟩) [])

/-- Embedding of `load_transactions`: the directory is `none` when absent
(`FileNotFoundError` becomes `Exception("Transactions data directory not
found")`); otherwise all parsed lines of all files are concatenated in
order. -/
def load_transactions (dir : Option (List (List Transaction))) :
    Except PyErr (List Transaction) :=
  match dir with
  | none => .error (.exception "Transactions data directory not found")
  | some files => .ok (files.foldl (fun acc f => acc ++ f) [])

/-- Body of the `for transaction in transactions` loop of
`aggregate_customer_data`: look the transaction customer up; if present,
increment its `purchase_count`; otherwise insert
`{loyalty_score: 0, purchase_count: 1}`. -/
def aggregate_step (customer_data : CustMap) (transaction : Transaction) : CustMap :=
  let customer_id := transaction.customer_id
  match dictGet customer_data customer_id with
  | some r =>
    dictInsert customer_data customer_id { r with purchase_count := r.purchase_count + 1 }
  | none => dictInsert customer_data customer_id ⟨0, 1⟩

/-- Embedding of `aggregate_customer_data` (value semantics; the reference
semantics of the shallow `customers.copy()` is modelled separately by
`aggregate_customer_data_heap`).  Note that the code counts one per
transaction per customer: it never reads `basket` or any product data. -/
def aggregate_customer_data (customers : CustMap) (transactions : List Transaction) :
    CustMap :=
  transactions.foldl aggregate_step customers

/-- One flat output record.  `product_id`/`product_category` hold
`some ""` for the `''` placeholder and `none` for the Python value `None`
that the fill loop can write into them. -/
structure OutputRec where
  customer_id : Option String
  loyalty_score : Int
  product_id : Option String
  product_category : Option String
  purchase_count : Nat
deriving DecidableEq, Repr

/-- The placeholder record appended by the first loop of
`generate_output_data`. -/
def placeholderRec (customer_id : Option String) (loyalty_score : Int) : OutputRec :=
  { customer_id := customer_id
    loyalty_score := loyalty_score
    product_id := some ""
    product_category := some ""
    purchase_count := 0 }

/-- First phase of `generate_output_data`: for every entry of
`customer_data`, append `purchase_count` copies of the placeholder record. -/
def buildPlaceholders (customer_data : CustMap) : List OutputRec :=
  customer_data.foldl
    (fun out kd => out ++ List.replicate kd.2.purchase_count (placeholderRec kd.1 kd.2.loyalty_score))
    []

/-- Inner scan of the second loop of `generate_output_data`: find the first
output record with the same customer and a still-placeholder `product_id`,
fill it in, bump its count, and `break`. -/
def fillFirst (customer_id product_id product_category : Option String) :
    List OutputRec → List OutputRec
  | [] => []
  | r :: rest =>
    if r.customer_id = customer_id ∧ r.product_id = some "" then
      { r with
          product_id := product_id
          product_category := product_category
          purchase_count := r.purchase_count + 1 } :: rest
    else r :: fillFirst customer_id product_id product_category rest

/-- Embedding of `generate_output_data`.  The second loop iterates over a
name `transactions` that is not a parameter and not assigned locally, so
Python resolves it against the module globals: `globalTransactions` is that
binding (`none` = unbound, in which case evaluating the loop header raises
`NameError`). -/
def generate_output_data (globalTransactions : Option (List Transaction))
    (customer_data : CustMap) (products : ProdMap) : Except PyErr (List OutputRec) :=
  let output_data := buildPlaceholders customer_data
  match globalTransactions with
  | none => .error (.nameError "transactions")
  | some transactions =>
    .ok (transactions.foldl
      (fun out transaction =>
        let customer_id := transaction.customer_id
        let product_id := transaction.product_id
        let product_category :=
          product_id.bind (fun p => (dictGet products p).map ProdRec.product_category)
        fillFirst customer_id product_id product_category out)
      output_data)

/-- The module `solution_start.py` defines no global named `transactions`
(the `transactions` in `process_data` is a local variable, invisible to
`generate_output_data`). -/
def moduleTransactionsGlobal : Option (List Transaction) := none

/-- Embedding of `save_output_data` (the write succeeds; write failures are
outside this model and are unreachable anyway, see `generate_output_data`). -/
def save_output_data (records : List OutputRec) : Except PyErr (List OutputRec) :=
  .ok records

/-- The observable outcome of one `process_data` run: either the output
records were saved, or an error message was printed and nothing saved. -/
inductive ProcessOutcome where
  | saved (records : List OutputRec)
  | printedError (msg : String)
deriving DecidableEq, Repr

/-- The `try` block of `process_data`: load, aggregate, generate, save. -/
def process_body (customersFile : Option (List CustomerRow))
    (productsFile : Option (List ProductRow))
    (transactionsDir : Option (List (List Transaction))) :
    Except PyErr (List OutputRec) := do
  let customers ← load_customers customersFile
  let products ← load_products productsFile
  let transactions ← load_transactions transactionsDir
  let customer_data := aggregate_customer_data customers transactions
  let output_data ← generate_output_data moduleTransactionsGlobal customer_data products
  save_output_data output_data

/-- Embedding of `process_data`: every `Exception` escaping the body is
caught and reported with the `An error occurred ...` prefix. -/
def process_data (customersFile : Option (List CustomerRow))
    (productsFile : Option (List ProductRow))
    (transactionsDir : Option (List (List Transaction))) : ProcessOutcome :=
  match process_body customersFile productsFile transactionsDir with
  | .ok records => .saved records
  | .error e =>
    .printedError ("An error occurred while processing the data: " ++ e.message)

/-- Stated from the spec wording, for comparison with the code: the number
of basket line items, across all of the given customer's transactions,
whose `product_id` resolves to a known category in the products mapping. -/
def spec_resolvedItemCount (products : ProdMap) (transactions : List Transaction)
    (c : Option String) : Nat :=
  (transactions.filter (fun t => decide (t.customer_id = c))).foldl
    (fun n t => n + (t.basket.filter (fun b => (dictGet products b.product_id).isSome)).length)
    0

/-- Stated from the spec wording, for comparison with the code: the
per-(customer, category) purchase count demanded by the spec aggregator. -/
def spec_aggregate (products : ProdMap) (transactions : List Transaction)
    (k : Option String × String) : Nat :=
  transactions.foldl
    (fun n t =>
      if t.customer_id = k.1 then
        n + (t.basket.filter (fun b => decide (dictGet products b.product_id = some ⟨k.2⟩))).length
      else n)
    0

/-- Stated from the spec wording: merging two partial aggregation results by
summing counts per key. -/
def merge_counts {K : Type} (a b : K → Nat) : K → Nat :=
  fun k => a k + b k

/-- Number of transactions whose `customer_id` equals `k` (what the code
actually counts per customer). -/
def tCount (k : Option String) (transactions : List Transaction) : Nat :=
  transactions.countP (fun t => decide (t.customer_id = k))

/-- Effect of `n` increments on one customer entry of the aggregation dict. -/
def bumpN (n : Nat) (v : Option CustRec) : Option CustRec :=
  match v with
  | some r => some { r with purchase_count := r.purchase_count + n }
  | none => if n = 0 then none else some ⟨0, n⟩

/-- Heap used to model Python reference semantics: addresses of the mutable
per-customer dicts. -/
structure PyState where
  heap : Nat → CustRec
  next : Nat

/-- Outer dict of `customers` under reference semantics: each key maps to
the address of its per-customer record. -/
abbrev RefMap := List (Option String × Nat)

/-- One loop iteration of `aggregate_customer_data` under reference
semantics: `customer_data[cid]['purchase_count'] += 1` writes through the
shared address; the `else` branch allocates a fresh record. -/
def heap_step (acc : RefMap × PyState) (transaction : Transaction) : RefMap × PyState :=
  let cd := acc.1
  let st := acc.2
  let customer_id := transaction.customer_id
  match dictGet cd customer_id with
  | some addr =>
    (cd,
      { st with
          heap := Function.update st.heap addr
            { st.heap addr with purchase_count := (st.heap addr).purchase_count + 1 } })
  | none =>
    (dictInsert cd customer_id st.next,
      { heap := Function.update st.heap st.next ⟨0, 1⟩, next := st.next + 1 })

/-- Embedding of `aggregate_customer_data` under reference semantics:
`customers.copy()` duplicates only the outer key-to-reference table, so the
per-customer records stay shared with the caller's dict. -/
def aggregate_customer_data_heap (customers : RefMap) (st : PyState)
    (transactions : List Transaction) : RefMap × PyState :=
  transactions.foldl heap_step (customers, st)

/-- Spec section 8 example input: one customer, two products, one
transaction whose basket is `[P1, P2, P1]`. -/
def c1_customers_rows : List CustomerRow := [⟨"C1", 10⟩]

/-- Products rows of the spec section 8 example. -/
def c1_products_rows : List ProductRow := [⟨"P1", "electronics"⟩, ⟨"P2", "food"⟩]

/-- Products dict of the spec section 8 example, as loaded. -/
def c1_products : ProdMap := [("P1", ⟨"electronics"⟩), ("P2", ⟨"food"⟩)]

/-- Transaction of the spec section 8 example. -/
def c1_txn : Transaction := ⟨some "C1", [⟨"P1"⟩, ⟨"P2"⟩, ⟨"P1"⟩], none⟩

/-- A transaction whose single basket item has an unknown product id. -/
def c2_txn : Transaction := ⟨some "C1", [⟨"PX"⟩], none⟩

/-- A transaction of an unknown customer holding a resolvable item. -/
def c4_txn : Transaction := ⟨some "unknown_id", [⟨"P1"⟩], none⟩

/-- A transaction whose single basket item has an unknown product id. -/
def c5_txn : Transaction := ⟨some "C1", [⟨"PX"⟩], none⟩

/-- A concrete transaction by customer C1. -/
def c7_txn_a : Transaction := ⟨some "C1", [], none⟩

/-- A concrete transaction by customer C2. -/
def c7_txn_b : Transaction := ⟨some "C2", [], none⟩

/-- Caller-side customers dict under reference semantics: C1 at address 0. -/
def c8_customers : RefMap := [(some "C1", 0)]

/-- Initial heap: address 0 holds the record of C1 with loyalty 10 and
purchase count 0; next free address is 1. -/
def c8_state : PyState := ⟨Function.update (fun _ => ⟨0, 0⟩) 0 ⟨10, 0⟩, 1⟩

/-- A transaction by the known customer C1. -/
def c8_txn : Transaction := ⟨some "C1", [], none⟩

theorem dictGet_dictInsert {K V : Type} [DecidableEq K] (m : List (K × V)) (k k0 : K)
    (v : V) :
    dictGet (dictInsert m k v) k0 = if k0 = k then some v else dictGet m k0 := by
  induction m with
  | nil => simp [dictGet, dictInsert, eq_comm]
  | cons kv rest ih =>
    obtain ⟨k1, v1⟩ := kv
    by_cases h1 : k1 = k
    · subst h1
      by_cases h0 : k0 = k1
      · subst h0
        simp [dictGet, dictInsert]
      · simp [dictGet, dictInsert, h0, Ne.symm h0]
    · by_cases h0 : k1 = k0
      · subst h0
        simp [dictGet, dictInsert, h1]
      · simp [dictGet, dictInsert, h1, h0, ih]

theorem bumpN_zero (v : Option CustRec) : bumpN 0 v = v := by
  cases v with
  | none => rfl
  | some r => rfl

theorem bumpN_succ (n : Nat) (v : Option CustRec) :
    bumpN n (bumpN 1 v) = bumpN (n + 1) v := by
  cases v with
  | none => simp [bumpN, Nat.add_comm]
  | some r => simp [bumpN, Nat.add_assoc, Nat.add_comm 1 n]

theorem dictGet_aggregate_step (cd : CustMap) (t : Transaction) (k : Option String) :
    dictGet (aggregate_step cd t) k
      = if t.customer_id = k then bumpN 1 (dictGet cd k) else dictGet cd k := by
  simp only [aggregate_step]
  by_cases h : t.customer_id = k
  · subst h
    cases hg : dictGet cd t.customer_id with
    | none => simp [hg, dictGet_dictInsert, bumpN]
    | some r => simp [hg, dictGet_dictInsert, bumpN]
  · cases hg : dictGet cd t.customer_id with
    | none => simp [hg, dictGet_dictInsert, h, Ne.symm h]
    | some r => simp [hg, dictGet_dictInsert, h, Ne.symm h]

theorem dictGet_aggregate (transactions : List Transaction) (customers : CustMap)
    (k : Option String) :
    dictGet (aggregate_customer_data customers transactions) k
      = bumpN (tCount k transactions) (dictGet customers k) := by
  induction transactions generalizing customers with
  | nil => simp [aggregate_customer_data, tCount, bumpN_zero]
  | cons t ts ih =>
    have hstep : aggregate_customer_data customers (t :: ts)
        = aggregate_customer_data (aggregate_step customers t) ts := rfl
    rw [hstep, ih, dictGet_aggregate_step]
    by_cases h : t.customer_id = k
    · simp [tCount, List.countP_cons, h, bumpN_succ]
    · simp [tCount, List.countP_cons, h]

theorem buildPlaceholders_foldl_length (cd : CustMap) (acc : List OutputRec) :
    (cd.foldl
        (fun out kd =>
          out ++ List.replicate kd.2.purchase_count (placeholderRec kd.1 kd.2.loyalty_score))
        acc).length
      = acc.length + (cd.map (fun kv => kv.2.purchase_count)).sum := by
  induction cd generalizing acc with
  | nil => simp
  | cons kd rest ih =>
    simp [ih, List.length_append, List.length_replicate, Nat.add_assoc]

/-- C1: the claim asks that the sum of `purchase_count` over the output rows
of a customer equal the number of that customer's basket items resolving to
a known category.  On the spec section 8 example the code instead aborts:
`generate_output_data` raises a `NameError` on the unbound name
`transactions`, so the pipeline prints an error and emits no output rows at
all, while the spec-side count of resolved items is 3 and the code-side
aggregate even counts 1 (one per transaction, baskets never read). -/
theorem c1_sum_property_fails_on_code :
    process_data (some c1_customers_rows) (some c1_products_rows) (some [[c1_txn]])
      = ProcessOutcome.printedError
          "An error occurred while processing the data: name transactions is not defined"
    ∧ spec_resolvedItemCount c1_products [c1_txn] (some "C1") = 3
    ∧ dictGet (aggregate_customer_data [(some "C1", ⟨10, 0⟩)] [c1_txn]) (some "C1")
        = some ⟨10, 1⟩ :=
  ⟨rfl, rfl, rfl⟩

/-- C2: the claim says the aggregation step resolves each basket item to a
category and counts by (customer, category), skipping unresolved items.
On a transaction whose only item has an unknown product id the code still
produces the entry C1 with purchase count 1, keyed by customer alone,
while per-(customer, category) counting yields 0 for every category: the
code counts transactions and never reads baskets or products. -/
theorem c2_aggregation_ignores_basket :
    aggregate_customer_data [] [c2_txn] = [(some "C1", ⟨0, 1⟩)]
    ∧ ∀ category : String, spec_aggregate [] [c2_txn] (some "C1", category) = 0 := by
  refine ⟨rfl, ?_⟩
  intro category
  simp [spec_aggregate, c2_txn, dictGet, List.filter]

/-- C3 counterexample: the claim says an absent customers file makes the
loader return an empty mapping.  In the code the loader raises instead:
`load_customers` on a missing file is an error, not `ok` with the empty
dict. -/
theorem c3_loader_not_graceful_counterexample :
    load_customers none ≠ Except.ok ([] : CustMap) := by
  intro h
  exact Except.noConfusion h

/-- C3 amended: when the customers (or products) file is absent the loader
raises an exception (`... data file not found`); `process_data` catches it
and prints the report, and the run is aborted — no empty-mapping fallback
and no downstream loyalty-0 degradation takes place. -/
theorem c3_missing_file_aborts_run :
    load_customers none = Except.error (PyErr.exception "Customers data file not found")
    ∧ load_products none = Except.error (PyErr.exception "Products data file not found")
    ∧ ∀ (productsFile : Option (List ProductRow))
        (transactionsDir : Option (List (List Transaction))),
        process_data none productsFile transactionsDir
          = ProcessOutcome.printedError
              "An error occurred while processing the data: Customers data file not found" :=
  ⟨rfl, rfl, fun _ _ => rfl⟩

/-- C4: the claim asks that a transaction of an unknown customer with a
resolvable basket item still yield output rows for that customer with
loyalty 0.  The aggregation does record the unknown customer with loyalty
0, but the pipeline aborts with the `transactions` `NameError` before any
output row exists. -/
theorem c4_unknown_customer_rows_lost :
    dictGet (aggregate_customer_data [] [c4_txn]) (some "unknown_id") = some ⟨0, 1⟩
    ∧ process_data (some []) (some [⟨"P1", "electronics"⟩]) (some [[c4_txn]])
        = ProcessOutcome.printedError
            "An error occurred while processing the data: name transactions is not defined" :=
  ⟨rfl, rfl⟩

/-- C5: the claim says a basket item with an unknown product id contributes
zero aggregation entries.  The spec-side count of resolvable items is 0,
yet the code still counts the enclosing transaction (C1 gets purchase
count 1, since aggregation ignores product resolution entirely), and the
pipeline then aborts with the `transactions` `NameError` instead of
silently excluding the item from output. -/
theorem c5_unknown_product_still_counted :
    spec_resolvedItemCount [] [c5_txn] (some "C1") = 0
    ∧ dictGet (aggregate_customer_data [] [c5_txn]) (some "C1") = some ⟨0, 1⟩
    ∧ process_data (some []) (some []) (some [[c5_txn]])
        = ProcessOutcome.printedError
            "An error occurred while processing the data: name transactions is not defined" :=
  ⟨rfl, rfl, rfl⟩

/-- C6: the claim says an empty transaction sequence yields an empty output
whatever the customer and product contents.  With one customer and no
transactions the aggregate keeps the customer at count 0 and no placeholder
row is built, but the run still aborts with the `transactions` `NameError`:
the pipeline reports an error and produces no output artifact instead of an
empty one. -/
theorem c6_empty_transactions_not_empty_output :
    aggregate_customer_data [(some "C1", ⟨10, 0⟩)] [] = [(some "C1", ⟨10, 0⟩)]
    ∧ buildPlaceholders [(some "C1", ⟨10, 0⟩)] = []
    ∧ process_data (some [⟨"C1", 10⟩]) (some []) (some [])
        = ProcessOutcome.printedError
            "An error occurred while processing the data: name transactions is not defined" :=
  ⟨rfl, rfl, rfl⟩

/-- C7: the final per-key counts of the aggregation are order-independent —
permuting the transaction sequence leaves the key-to-record mapping of
`aggregate_customer_data` unchanged at every key — and merging partial
results by summing counts per key is commutative and associative. -/
theorem c7_aggregation_order_independent :
    (∀ (customers : CustMap) (t1 t2 : List Transaction), t1.Perm t2 →
        ∀ k, dictGet (aggregate_customer_data customers t1) k
            = dictGet (aggregate_customer_data customers t2) k)
    ∧ ∀ (a b c : (Option String × String) → Nat),
        merge_counts a b = merge_counts b a
        ∧ merge_counts (merge_counts a b) c = merge_counts a (merge_counts b c) := by
  constructor
  · intro customers t1 t2 hperm k
    rw [dictGet_aggregate, dictGet_aggregate]
    have hcount : tCount k t1 = tCount k t2 := hperm.countP_eq _
    rw [hcount]
  · intro a b c
    constructor
    · funext k
      simp [merge_counts, Nat.add_comm]
    · funext k
      simp [merge_counts, Nat.add_assoc]

/-- C7 witness: the permutation hypothesis instantiated on two concrete
transactions swapped. -/
theorem c7_aggregation_order_independent_witness :
    List.Perm [c7_txn_a, c7_txn_b] [c7_txn_b, c7_txn_a]
    ∧ dictGet (aggregate_customer_data [] [c7_txn_a, c7_txn_b]) (some "C1")
        = dictGet (aggregate_customer_data [] [c7_txn_b, c7_txn_a]) (some "C1") :=
  ⟨List.Perm.swap c7_txn_b c7_txn_a [],
    c7_aggregation_order_independent.1 [] [c7_txn_a, c7_txn_b] [c7_txn_b, c7_txn_a]
      (List.Perm.swap c7_txn_b c7_txn_a []) (some "C1")⟩

/-- C8: the claim says `aggregate_customer_data` leaves its customers
argument, including every per-customer record, unchanged.  Under reference
semantics the shallow `customers.copy()` shares the per-customer records,
and the in-place `purchase_count += 1` writes through: after aggregating
one transaction of the known customer C1, the record at the address the
caller's dict still points to has changed from count 0 to count 1. -/
theorem c8_shallow_copy_mutates_caller :
    (aggregate_customer_data_heap c8_customers c8_state [c8_txn]).2.heap 0 = ⟨10, 1⟩
    ∧ c8_state.heap 0 = ⟨10, 0⟩
    ∧ dictGet c8_customers (some "C1") = some 0 := by
  refine ⟨?_, ?_, rfl⟩
  · simp [aggregate_customer_data_heap, heap_step, c8_customers, c8_state, c8_txn,
      dictGet, Function.update]
  · simp [c8_state, Function.update]

/-- C9: `generate_output_data` pre-allocates one placeholder row per unit of
`purchase_count` (second conjunct), and its re-matching scan reads the name
`transactions`, which is unbound in the module scope it resolves against,
so for every input the function fails with a `NameError` instead of
producing category-level aggregates (first conjunct). -/
theorem c9_generate_output_always_name_error :
    (∀ (customer_data : CustMap) (products : ProdMap),
        generate_output_data moduleTransactionsGlobal customer_data products
          = Except.error (PyErr.nameError "transactions"))
    ∧ ∀ customer_data : CustMap,
        (buildPlaceholders customer_data).length
          = (customer_data.map (fun kv => kv.2.purchase_count)).sum := by
  constructor
  · intro customer_data products
    rfl
  · intro customer_data
    simpa [buildPlaceholders] using buildPlaceholders_foldl_length customer_data []

/-- C10: `process_data` never propagates an exception: whatever the three
input locations hold, the run ends in a printed error report or a saved
output (in fact always a printed report, since the body always raises), and
every error of the body is reported with the `An error occurred while
processing the data:` prefix. -/
theorem c10_process_data_catches_everything :
    (∀ customersFile productsFile transactionsDir,
        ∃ msg, process_data customersFile productsFile transactionsDir
          = ProcessOutcome.printedError msg)
    ∧ ∀ customersFile productsFile transactionsDir e,
        process_body customersFile productsFile transactionsDir = Except.error e →
        process_data customersFile productsFile transactionsDir
          = ProcessOutcome.printedError
              ("An error occurred while processing the data: " ++ e.message) := by
  constructor
  · intro cf pf tf
    cases cf with
    | none => exact ⟨_, rfl⟩
    | some crows =>
      cases pf with
      | none => exact ⟨_, rfl⟩
      | some prows =>
        cases tf with
        | none => exact ⟨_, rfl⟩
        | some files => exact ⟨_, rfl⟩
  · intro cf pf tf e h
    simp [process_data, h]

/-- C10 witness: on three absent inputs the body raises the missing
customers file exception and `process_data` reports it. -/
theorem c10_process_data_catches_everything_witness :
    process_data none none none
      = ProcessOutcome.printedError
          ("An error occurred while processing the data: "
            ++ (PyErr.exception "Customers data file not found").message) :=
  c10_process_data_catches_everything.2 none none none
    (PyErr.exception "Customers data file not found") rfl

end Resolve
